import Mathlib

/-!
Verification of the MangoHud telemetry subsystem of
`library/sensors/sensors_custom.py` (turing-smart-screen-python-mangohud).

The Python classes are shallowly embedded as follows:

* float values are modelled as rationals (`ℚ`); the NaN "no data" sentinel
  stored in histories is modelled as `none` in `Option ℚ`;
* a value found in a metrics mapping is a `MetricVal`: either a number or a
  non-numeric value (on which Python's `float()` raises);
* each method that interacts with the external `mangosocketreader` client
  takes the outcome of that client call as an explicit argument
  (`Except String _`, where `.error` is a raised exception);
* mutation is explicit state passing: `MetricsState` embeds the fields of
  the `MangoHudMetrics` singleton, `FpsState` those of `MangoHudFPS`, and
  `World` couples the two (the `MangoHudFPS` instance holds the shared
  provider);
* a method that can raise returns its exception/result outcome together
  with the state at the moment control leaves the method.
-/

deriving instance DecidableEq for Except

/-- A value held in a metrics mapping: a (finite) float, modelled as a
rational, or a non-numeric (truthy) value on which `float()` raises. -/
inductive MetricVal where
  | num (q : ℚ)
  | nonNum
  deriving DecidableEq, Repr

/-- Python `float(v)` on a metric value: fails (raises) on a non-numeric. -/
def floatOfVal : MetricVal → Option ℚ
  | MetricVal.num q => some q
  | MetricVal.nonNum => none

/-- A metrics mapping, as returned by `client.read_metrics()`. -/
abbrev Metrics := List (String × MetricVal)

/-- `m.get(k)` on a metrics mapping. -/
def lookupField (m : Metrics) (k : String) : Option MetricVal :=
  (m.find? (fun kv => kv.1 = k)).map (fun kv => kv.2)

/-- Every value of the mapping is numeric (the spec's `MetricsSnapshot`
maps field names to float64 values). -/
def allNumeric (m : Metrics) : Bool :=
  m.all (fun kv => match kv.2 with | MetricVal.num _ => true | MetricVal.nonNum => false)

/-- A rolling history: entries are floats, `none` being the NaN sentinel. -/
abbrev Hist := List (Option ℚ)

/-- The association list `self.histories` of `MangoHudMetrics`. -/
abbrev Histories := List (String × Hist)

/-- The five tracked history fields, in dict insertion order
(`MangoHudMetrics.__init__`). -/
def trackedFields : List String :=
  ["fps", "gpu_load", "gpu_temp", "gpu_junction_temp", "gpu_power"]

/-- `self.histories` right after `MangoHudMetrics.__init__`:
each tracked field pre-filled with 60 NaN sentinels. -/
def histInit : Histories :=
  trackedFields.map (fun k => (k, List.replicate 60 (none : Option ℚ)))

/-- One push on a rolling history: `append` the new value then `pop(0)`
the oldest (`MangoHudMetrics.update`). -/
def pushHist (h : Hist) (v : Option ℚ) : Hist :=
  (h ++ [v]).drop 1

/-- The value appended for tracked field `k` when the incoming mapping is
`m`: `val = m.get(k)`, NaN if absent, then `float(val)` (which raises on a
non-numeric value). -/
def histEntry : Option MetricVal → Except String (Option ℚ)
  | none => Except.ok none
  | some (MetricVal.num q) => Except.ok (some q)
  | some MetricVal.nonNum => Except.error "could not convert value to float"

/-- The `for k in self.histories.keys()` loop of `MangoHudMetrics.update`:
pushes one entry per tracked field, in order; on a `float()` failure the
exception escapes with the already-processed prefix mutated and the rest
untouched. -/
def pushAllHist : Histories → Metrics → Option String × Histories
  | [], _ => (none, [])
  | (k, h) :: rest, m =>
    match histEntry (lookupField m k) with
    | Except.error e => (some e, (k, h) :: rest)
    | Except.ok v =>
      let tl := pushAllHist rest m
      (tl.1, (k, pushHist h v) :: tl.2)

/-- The mutable fields of the `MangoHudMetrics` singleton.
`clientPresent` is `self.client is not None`. -/
structure MetricsState where
  clientPresent : Bool
  connected : Bool
  pid : Option Int
  metrics : Metrics
  lastUpdateTs : ℚ
  histories : Histories
  deriving DecidableEq, Repr

/-- `MangoHudMetrics` state right after a fresh `__init__`; `importOk`
tells whether `from mangosocketreader.client import MangoHudClient`
succeeded. -/
def initialMetricsState (importOk : Bool) : MetricsState :=
  { clientPresent := importOk
    connected := false
    pid := none
    metrics := []
    lastUpdateTs := 0
    histories := histInit }

/-- `MangoHudMetrics.ensure_client`: lazily retries the client import;
never raises (the import failure is caught). -/
def ensureClient (importOk : Bool) (s : MetricsState) : Bool × MetricsState :=
  if s.clientPresent then (true, s)
  else if importOk then (true, { s with clientPresent := true })
  else (false, s)

/-- `MangoHudMetrics.ensure_connected`.  `connectRes` is the outcome of
`self.client.connect()` and `pidRes` that of `self.client.get_pid()`; the
`Nat` counts how many times `client.connect()` (a discovery scan) was
invoked during the call. -/
def ensureConnected (importOk : Bool) (connectRes : Except String Bool)
    (pidRes : Except String (Option Int)) (s : MetricsState) :
    Bool × MetricsState × Nat :=
  let ec := ensureClient importOk s
  let s1 := ec.2
  if !ec.1 then (false, s1, 0)
  else if s1.connected then (true, s1, 0)
  else
    match connectRes with
    | Except.error _ => (false, { s1 with connected := false }, 1)
    | Except.ok b =>
      if b then
        match pidRes with
        | Except.ok p => (true, { s1 with connected := true, pid := p }, 1)
        | Except.error _ => (true, { s1 with connected := true, pid := none }, 1)
      else (false, { s1 with connected := false }, 1)

/-- Modelled from the spec: the socket close performed by
`MangoHudClient.disconnect` lives in the `mangosocketreader` library,
which is not part of this repository's sources.  Per the spec's resource
discipline, "closing is best-effort and never raises": the client call
always returns normally. -/
def clientCloseSpec : Except String Unit := Except.ok ()

/-- `MangoHudMetrics.disconnect`: calls `self.client.disconnect()` (when a
client exists) inside `try`/`finally`; the `finally` block resets
`connected` and `pid` unconditionally, after which a raised close error
still propagates (there is no `except` clause). -/
def mDisconnect (discRes : Except String Unit) (s : MetricsState) :
    Option String × MetricsState :=
  let raised :=
    if s.clientPresent then
      match discRes with
      | Except.ok _ => none
      | Except.error e => some e
    else none
  (raised, { s with connected := false, pid := none })

/-- `MangoHudMetrics.update`.  `readRes` is the outcome of
`self.client.read_metrics()` (an exception there is caught and treated as
no data).  Returns the outcome of the call (`.ok` with the boolean return
value, or `.error` when the history-update loop raised) and the state at
the moment control leaves the method. -/
def mUpdate (nowT : ℚ) (readRes : Except String Metrics) (s : MetricsState) :
    Except String Bool × MetricsState :=
  if !s.connected then (Except.ok false, s)
  else if nowT - s.lastUpdateTs < 1 / 100 then (Except.ok (!s.metrics.isEmpty), s)
  else
    let s1 := { s with lastUpdateTs := nowT }
    match readRes with
    | Except.error _ => (Except.ok false, s1)
    | Except.ok m =>
      if m.isEmpty then (Except.ok false, s1)
      else
        let s2 := { s1 with metrics := m }
        let p := pushAllHist s2.histories m
        match p.1 with
        | none => (Except.ok true, { s2 with histories := p.2 })
        | some e => (Except.error e, { s2 with histories := p.2 })

/-- `MangoHudMetrics.get`. -/
def mGet (s : MetricsState) (field : String) : Option MetricVal :=
  lookupField s.metrics field

/-- `MangoHudMetrics.get_history`: sentinel-filled sequence for a field
with no tracked history. -/
def mGetHistory (s : MetricsState) (field : String) : Hist :=
  ((s.histories.find? (fun kh => kh.1 = field)).map (fun kh => kh.2)).getD
    (List.replicate 60 (none : Option ℚ))

/-- The decimal digits of `n`, most significant first, with explicit fuel
(structural recursion, so that it evaluates inside the kernel); fuel `n`
is always enough since `n / 10 < n` for positive `n`. -/
def natDigitsAux : Nat → Nat → List Char
  | 0, _ => []
  | _, 0 => []
  | fuel + 1, n => natDigitsAux fuel (n / 10) ++ [Char.ofNat (48 + n % 10)]

/-- The decimal digits of `n`, most significant first. -/
def natDigitsRev (n : Nat) : List Char := natDigitsAux n n

/-- Python `repr` of an integer. -/
def intRepr (n : Int) : String :=
  if n < 0 then String.mk ('-' :: natDigitsRev n.natAbs)
  else if n = 0 then "0"
  else String.mk (natDigitsRev n.natAbs)

/-- The f-string `f"{n:>3d}"`: decimal `n` right-aligned in a field of
width 3, padded with spaces (wider than 3 characters if `n` needs more). -/
def fmtRight3 (n : Int) : String :=
  let s := intRepr n
  String.mk (List.replicate (3 - s.length) ' ') ++ s

/-- Python 3 `round()` to an integer: round half to even.  For
`q = num / den` (`den > 0`), the floor is `num.fdiv den` and the
fractional part `q - ⌊q⌋` compares to `1 / 2` as `2 * (num - ⌊q⌋ * den)`
compares to `den`; everything stays in integer arithmetic so the
definition evaluates inside the kernel. -/
def pyRound (q : ℚ) : Int :=
  let f := Int.fdiv q.num (q.den : Int)
  let r2 := 2 * (q.num - f * (q.den : Int))
  if r2 < (q.den : Int) then f
  else if (q.den : Int) < r2 then f + 1
  else if f % 2 = 0 then f else f + 1

/-- Python `math.ceil` on a rational: `⌈num / den⌉ = -((-num).fdiv den)`
(`den > 0`), kept in integer arithmetic so that it evaluates inside the
kernel. -/
def pyCeil (q : ℚ) : Int :=
  -(Int.fdiv (-q.num) (q.den : Int))

/-- The mutable fields of the `MangoHudFPS` singleton. -/
structure FpsState where
  connected : Bool
  pid : Option Int
  lastDiscoveryTime : ℚ
  discoveryInterval : ℚ
  currentFps : ℚ
  onePercentLowFps : ℚ
  zeroOnePercentLowFps : ℚ
  lastVal : Hist
  deriving DecidableEq, Repr

/-- `MangoHudFPS` state right after a fresh `__init__`. -/
def initialFpsState : FpsState :=
  { connected := false
    pid := none
    lastDiscoveryTime := 0
    discoveryInterval := 5
    currentFps := 0
    onePercentLowFps := 0
    zeroOnePercentLowFps := 0
    lastVal := List.replicate 60 (none : Option ℚ) }

/-- The coupled state of the `MangoHudFPS` singleton and its shared
`MangoHudMetrics` provider. -/
structure World where
  f : FpsState
  m : MetricsState
  deriving DecidableEq, Repr

/-- The world after both singletons ran their first `__init__`. -/
def initialWorld (importOk : Bool) : World :=
  { f := initialFpsState, m := initialMetricsState importOk }

/-- `MangoHudFPS.connect`: delegates to the shared provider and mirrors the
provider's `connected`/`pid` into the facade's own fields.  The `Nat`
counts discovery scans performed. -/
def fpsConnect (importOk : Bool) (connectRes : Except String Bool)
    (pidRes : Except String (Option Int)) (w : World) : Bool × World × Nat :=
  if w.f.connected then (true, w, 0)
  else
    let r := ensureConnected importOk connectRes pidRes w.m
    let m1 := r.2.1
    (r.1, { f := { w.f with connected := m1.connected, pid := m1.pid }, m := m1 }, r.2.2)

/-- `MangoHudFPS.disconnect`: provider disconnect, then reset of the
facade's own flags (skipped when the provider call raised, as the
exception propagates first). -/
def fpsDisconnect (discRes : Except String Unit) (w : World) : Option String × World :=
  let r := mDisconnect discRes w.m
  match r.1 with
  | some e => (some e, { w with m := r.2 })
  | none => (none, { f := { w.f with connected := false, pid := none }, m := r.2 })

/-- `MangoHudFPS.discover_and_connect`: connects only when not connected
and at least `discovery_interval` seconds have passed since the last
attempt; records the attempt time; returns no value.  The `Nat` counts
discovery scans performed. -/
def discoverAndConnect (nowT : ℚ) (importOk : Bool) (connectRes : Except String Bool)
    (pidRes : Except String (Option Int)) (w : World) : World × Nat :=
  if !w.f.connected ∧ w.f.discoveryInterval ≤ nowT - w.f.lastDiscoveryTime then
    let w1 : World := { w with f := { w.f with lastDiscoveryTime := nowT } }
    let p := fpsConnect importOk connectRes pidRes w1
    (p.2.1, p.2.2)
  else (w, 0)

/-- `MangoHudFPS.read_fps_data`: runs `provider.update()` (whose exception
would propagate), then caches `float(get('fps') or 0.0)` and
`float(get('fps_1_percent_low') or 0.0)` — either `float()` raises on a
non-numeric value. -/
def readFpsData (nowT : ℚ) (readRes : Except String Metrics) (w : World) :
    Except String Bool × World :=
  if !w.f.connected then (Except.ok false, w)
  else
    let u := mUpdate nowT readRes w.m
    match u.1 with
    | Except.error e => (Except.error e, { w with m := u.2 })
    | Except.ok ok =>
      let w1 : World := { w with m := u.2 }
      if !ok then (Except.ok false, w1)
      else
        match floatOfVal ((lookupField u.2.metrics "fps").getD (MetricVal.num 0)) with
        | none => (Except.error "could not convert value to float", w1)
        | some fps =>
          let w2 : World := { w1 with f := { w1.f with currentFps := fps } }
          match floatOfVal ((lookupField u.2.metrics "fps_1_percent_low").getD (MetricVal.num 0)) with
          | none => (Except.error "could not convert value to float", w2)
          | some opl =>
            (Except.ok true, { w2 with f := { w2.f with onePercentLowFps := opl } })

/-- `MangoHudFPS.as_numeric`: discover/connect, then read when connected
(a read exception propagates — the call is not guarded here), and return
`self.current_fps`. -/
def fpsAsNumeric (nowT : ℚ) (importOk : Bool) (connectRes : Except String Bool)
    (pidRes : Except String (Option Int)) (readRes : Except String Metrics)
    (w : World) : Except String ℚ × World :=
  let w1 := (discoverAndConnect nowT importOk connectRes pidRes w).1
  if w1.f.connected then
    let r := readFpsData nowT readRes w1
    match r.1 with
    | Except.error e => (Except.error e, r.2)
    | Except.ok _ => (Except.ok r.2.f.currentFps, r.2)
  else (Except.ok w1.f.currentFps, w1)

/-- `MangoHudFPS.as_string`: attempts discovery when not connected,
returns the `"---"` placeholder when the provider is not connected, and
otherwise a refresh attempt (its exception swallowed) followed by
`f"{round(self.current_fps):>3d}"`.  Never raises. -/
def fpsAsString (nowT : ℚ) (importOk : Bool) (connectRes : Except String Bool)
    (pidRes : Except String (Option Int)) (readRes : Except String Metrics)
    (w : World) : String × World :=
  let w1 :=
    if !w.f.connected then (discoverAndConnect nowT importOk connectRes pidRes w).1
    else w
  if !w1.m.connected then ("---", w1)
  else
    let w2 := if w1.f.connected then (readFpsData nowT readRes w1).2 else w1
    (fmtRight3 (pyRound w2.f.currentFps), w2)

/-- `MangoHudFPS.last_values`. -/
def fpsLastValues (w : World) : Hist := w.f.lastVal

/-- The constructor arguments of a `_MangoHudBaseSensor` subclass. -/
structure BaseSensor where
  field : String
  useHistory : Bool
  deriving DecidableEq, Repr

/-- `MangoHudFPSAvg()`. -/
def fpsAvgSensor : BaseSensor := { field := "fps_avg", useHistory := false }

/-- `MangoHudGPULoad()`. -/
def gpuLoadSensor : BaseSensor := { field := "gpu_load", useHistory := true }

/-- `_MangoHudBaseSensor.as_numeric`: `_ensure()` (provider
`ensure_connected` then `update`, either exception propagating), then the
guarded `float(v) if v is not None else 0.0` where a conversion error
yields `0.0`. -/
def baseAsNumeric (b : BaseSensor) (nowT : ℚ) (importOk : Bool)
    (connectRes : Except String Bool) (pidRes : Except String (Option Int))
    (readRes : Except String Metrics) (s : MetricsState) :
    Except String ℚ × MetricsState :=
  let s1 := (ensureConnected importOk connectRes pidRes s).2.1
  let u := mUpdate nowT readRes s1
  match u.1 with
  | Except.error e => (Except.error e, u.2)
  | Except.ok _ =>
    match mGet u.2 b.field with
    | none => (Except.ok 0, u.2)
    | some v =>
      match floatOfVal v with
      | some q => (Except.ok q, u.2)
      | none => (Except.ok 0, u.2)

/-- `_MangoHudBaseSensor.as_string`: `self.as_numeric()` (an exception
there propagates), then `f"{int(round(v)):>3d}"` inside a `try` whose
`except` yields `"---"`; with a rational `v` the conversion itself cannot
fail, so the formatted value is returned. -/
def baseAsString (b : BaseSensor) (nowT : ℚ) (importOk : Bool)
    (connectRes : Except String Bool) (pidRes : Except String (Option Int))
    (readRes : Except String Metrics) (s : MetricsState) :
    Except String String × MetricsState :=
  let r := baseAsNumeric b nowT importOk connectRes pidRes readRes s
  match r.1 with
  | Except.error e => (Except.error e, r.2)
  | Except.ok v => (Except.ok (fmtRight3 (pyRound v)), r.2)

/-- `_MangoHudBaseSensor.last_values`. -/
def baseLastValues (b : BaseSensor) (s : MetricsState) : Hist :=
  if !b.useHistory then List.replicate 60 (none : Option ℚ)
  else mGetHistory s b.field

/-- `MangoHud1PercentLow.as_numeric`: reads the `MangoHudFPS` singleton's
cached `one_percent_low_fps`. -/
def onePercentLowAsNumeric (w : World) : ℚ := w.f.onePercentLowFps

/-- `MangoHud1PercentLow.as_string`. -/
def onePercentLowAsString (w : World) : String :=
  if !w.f.connected then "---"
  else fmtRight3 (pyRound w.f.onePercentLowFps)

/-- `MangoHudZeroOnePercentLow.as_numeric`: reads the `MangoHudFPS`
singleton's cached `zero_one_percent_low_fps`. -/
def zeroOnePercentLowAsNumeric (w : World) : ℚ := w.f.zeroOnePercentLowFps

/-- `MangoHudZeroOnePercentLow.as_string` (uses `math.ceil`). -/
def zeroOnePercentLowAsString (w : World) : String :=
  if !w.f.connected then "---"
  else fmtRight3 (pyCeil w.f.zeroOnePercentLowFps)

/-- The `MangoHudMetrics` singleton instance: its `_init_done` marker and
its fields.  Before the first `__init__`, none of the fields exist; the
placeholder values of a blank instance are never observable because
`__init__` overwrites every field. -/
structure MetricsInstance where
  initDone : Bool
  st : MetricsState
  deriving DecidableEq, Repr

/-- A freshly allocated instance, before `__init__` runs. -/
def blankMetricsInstance : MetricsInstance :=
  { initDone := false, st := initialMetricsState false }

/-- `MangoHudMetrics.__init__`: a no-op when `_init_done` is already set,
otherwise initializes every field. -/
def runInitMetrics (importOk : Bool) (i : MetricsInstance) : MetricsInstance :=
  if i.initDone then i
  else { initDone := true, st := initialMetricsState importOk }

/-- The expression `MangoHudMetrics()`: `__new__` returns the class-level
`_instance` (allocating one the first time), then `__init__` runs on it.
The argument is the class cell `_instance`; the result is the returned
instance together with the updated cell. -/
def constructMetrics (importOk : Bool) (cell : Option MetricsInstance) :
    MetricsInstance × Option MetricsInstance :=
  let i0 := cell.getD blankMetricsInstance
  let i1 := runInitMetrics importOk i0
  (i1, some i1)

/-- `MangoHudMetrics.instance()`: simply evaluates `MangoHudMetrics()`. -/
def instanceMetrics (importOk : Bool) (cell : Option MetricsInstance) :
    MetricsInstance × Option MetricsInstance :=
  constructMetrics importOk cell

/-- Modelled from the spec: the low-FPS percentile computation lives in
the `mangosocketreader` library, absent from this repository's sources
(`MangoHudFPS.read_fps_data` only copies the provider's
`fps_1_percent_low` field).  Per spec §4.3: sort the frame-time sample
buffer descending (worst first). -/
def sortDesc (buf : List ℚ) : List ℚ :=
  buf.insertionSort (fun a b => b ≤ a)

/-- Modelled from the spec: the worst `max(1, n / d)` frame-time entries
(`d` = 100 for the 1% low, 1000 for the 0.1% low). -/
def lowSelection (buf : List ℚ) (d : Nat) : List ℚ :=
  (sortDesc buf).take (max 1 (buf.length / d))

/-- Modelled from the spec: average the selected worst frame times and
invert (`1000 / avg_ms`), an average of exactly 0 giving 0 FPS rather
than a division by zero. -/
def lowFpsValue (buf : List ℚ) (d : Nat) : ℚ :=
  let sel := lowSelection buf d
  let avg := sel.sum / (sel.length : ℚ)
  if avg = 0 then 0 else 1000 / avg

/-- Modelled from the spec: the percentile pass run after an append
batch.  The 1% low requires `n ≥ 100` and the 0.1% low `n ≥ 1000`; below
the threshold the previous value is retained, not recomputed. -/
def computeLowFps (prevOne prevZeroOne : ℚ) (buf : List ℚ) : ℚ × ℚ :=
  (if 100 ≤ buf.length then lowFpsValue buf 100 else prevOne,
   if 1000 ≤ buf.length then lowFpsValue buf 1000 else prevZeroOne)

/-- The frame-time buffer of the spec's percentile scenario:
99 frames of 10 ms and one of 100 ms. -/
def scenarioBuf : List ℚ := List.replicate 99 10 ++ [100]

/-- One externally triggered operation on the `MangoHudFPS` facade and its
shared provider, with the outcomes of the client calls it performs. -/
inductive FpsOp where
  | connectOp (importOk : Bool) (connectRes : Except String Bool)
      (pidRes : Except String (Option Int))
  | disconnectOp (discRes : Except String Unit)
  | discoverOp (nowT : ℚ) (importOk : Bool) (connectRes : Except String Bool)
      (pidRes : Except String (Option Int))
  | readOp (nowT : ℚ) (readRes : Except String Metrics)
  | numericOp (nowT : ℚ) (importOk : Bool) (connectRes : Except String Bool)
      (pidRes : Except String (Option Int)) (readRes : Except String Metrics)
  | stringOp (nowT : ℚ) (importOk : Bool) (connectRes : Except String Bool)
      (pidRes : Except String (Option Int)) (readRes : Except String Metrics)

/-- The world reached after one operation (whether it returned or
raised). -/
def stepFps (w : World) : FpsOp → World
  | FpsOp.connectOp io cr pr => (fpsConnect io cr pr w).2.1
  | FpsOp.disconnectOp dr => (fpsDisconnect dr w).2
  | FpsOp.discoverOp t io cr pr => (discoverAndConnect t io cr pr w).1
  | FpsOp.readOp t rr => (readFpsData t rr w).2
  | FpsOp.numericOp t io cr pr rr => (fpsAsNumeric t io cr pr rr w).2
  | FpsOp.stringOp t io cr pr rr => (fpsAsString t io cr pr rr w).2

/-- The world reached after a sequence of operations. -/
def runFps (w : World) (ops : List FpsOp) : World :=
  ops.foldl stepFps w

/-- The spec's contract for `client.read_metrics()`: when a mapping is
returned, every value in it is a float (`MetricsSnapshot` maps field
names to float64 values). -/
def readNumeric (readRes : Except String Metrics) : Prop :=
  ∀ m, readRes = Except.ok m → allNumeric m = true

/-- The history entry produced for tracked field `k` from an all-numeric
mapping: the field's value, or the NaN sentinel if absent. -/
def entryOfNum (m : Metrics) (k : String) : Option ℚ :=
  match lookupField m k with
  | some (MetricVal.num q) => some q
  | _ => none

/-- A provider state as reached right after a successful connection
(client present and connected, nothing read yet). -/
def sampleConnected : MetricsState :=
  { clientPresent := true
    connected := true
    pid := some 7
    metrics := []
    lastUpdateTs := 0
    histories := histInit }

/-- A provider state that was connected in the past: disconnected again,
but with a stale metrics snapshot still cached. -/
def sampleStale : MetricsState :=
  { clientPresent := false
    connected := false
    pid := none
    metrics := [("fps_avg", MetricVal.num 42)]
    lastUpdateTs := 0
    histories := histInit }

/-- A connected world whose last read produced 1000 FPS. -/
def sampleWideWorld : World :=
  { f := { initialFpsState with connected := true, currentFps := 1000 }
    m := { initialMetricsState true with connected := true } }

/-- A small all-numeric metrics mapping. -/
def sampleMetrics : Metrics :=
  [("fps", MetricVal.num 60), ("gpu_load", MetricVal.num 25)]

/-- A disconnected world whose provider already holds a client
(ready for a discovery attempt). -/
def sampleScanWorld : World :=
  { f := initialFpsState, m := initialMetricsState true }

/-! ## General lemmas about rolling histories -/

theorem pushHist_length (h : Hist) (v : Option ℚ) :
    (pushHist h v).length = h.length := by
  simp [pushHist]

theorem pushHist_eq_tail_append (h : Hist) (v : Option ℚ) (hne : h ≠ []) :
    pushHist h v = h.drop 1 ++ [v] := by
  unfold pushHist
  rw [List.drop_append_of_le_length]
  cases h with
  | nil => exact absurd rfl hne
  | cons a t => simp

theorem foldl_pushHist_drop (vs : List (Option ℚ)) :
    ∀ acc : Hist, vs.length ≤ acc.length →
      vs.foldl pushHist acc = acc.drop vs.length ++ vs := by
  induction vs with
  | nil => intro acc _; simp
  | cons v vs ih =>
    intro acc hle
    have hlen : vs.length ≤ (pushHist acc v).length := by
      rw [pushHist_length]
      simpa using Nat.le_of_succ_le hle
    have hstep : (pushHist acc v).drop vs.length = acc.drop (vs.length + 1) ++ [v] := by
      unfold pushHist
      rw [List.drop_drop,
        List.drop_append_of_le_length
          (by have h := hle; simp only [List.length_cons] at h; omega),
        Nat.add_comm]
    calc (v :: vs).foldl pushHist acc = vs.foldl pushHist (pushHist acc v) := by
          simp [List.foldl_cons]
      _ = (pushHist acc v).drop vs.length ++ vs := ih (pushHist acc v) hlen
      _ = (acc.drop (vs.length + 1) ++ [v]) ++ vs := by rw [hstep]
      _ = acc.drop (v :: vs).length ++ (v :: vs) := by simp

theorem foldl_pushHist_full (acc : Hist) (vs : List (Option ℚ))
    (h : acc.length = vs.length) : vs.foldl pushHist acc = vs := by
  rw [foldl_pushHist_drop vs acc (le_of_eq h.symm), ← h,
    List.drop_length, List.nil_append]

theorem lookupField_allNumeric {m : Metrics} {k : String}
    (h : allNumeric m = true) : lookupField m k ≠ some MetricVal.nonNum := by
  unfold lookupField
  cases hfind : m.find? (fun kv => kv.1 = k) with
  | none => simp
  | some kv =>
    have hmem : kv ∈ m := List.mem_of_find?_eq_some hfind
    have hval := (List.all_eq_true.mp h) kv hmem
    cases hv : kv.2 with
    | num q => simp [hv]
    | nonNum => rw [hv] at hval; simp at hval

theorem pushAllHist_numeric :
    ∀ (hs : Histories) (m : Metrics), allNumeric m = true →
      pushAllHist hs m =
        (none, hs.map (fun kh => (kh.1, pushHist kh.2 (entryOfNum m kh.1)))) := by
  intro hs m hnum
  induction hs with
  | nil => simp [pushAllHist]
  | cons kh rest ih =>
    obtain ⟨k, h⟩ := kh
    have hlk := lookupField_allNumeric (m := m) (k := k) hnum
    unfold pushAllHist
    cases hv : lookupField m k with
    | none => simp [histEntry, hv, ih, entryOfNum]
    | some v =>
      cases v with
      | num q => simp [histEntry, hv, ih, entryOfNum]
      | nonNum => exact absurd hv hlk

theorem pushAllHist_lens {n : Nat} :
    ∀ (hs : Histories) (m : Metrics),
      (∀ kh ∈ hs, (kh.2 : Hist).length = n) →
      ∀ kh ∈ (pushAllHist hs m).2, (kh.2 : Hist).length = n := by
  intro hs m
  induction hs with
  | nil => intro h kh hkh; simp [pushAllHist] at hkh
  | cons kh0 rest ih =>
    intro h kh hkh
    obtain ⟨k, h0⟩ := kh0
    unfold pushAllHist at hkh
    cases hv : histEntry (lookupField m k) with
    | error e =>
      rw [hv] at hkh
      simp only at hkh
      exact h kh hkh
    | ok v =>
      rw [hv] at hkh
      simp only [List.mem_cons] at hkh
      cases hkh with
      | inl heq =>
        subst heq
        have := h (k, h0) (by simp)
        simpa [pushHist_length] using this
      | inr hmem =>
        exact ih (fun kh2 hk2 => h kh2 (by simp [hk2])) kh hmem

/-! ## Structural lemmas about the provider operations -/

theorem ensureClient_preserve (io : Bool) (s : MetricsState) :
    (ensureClient io s).2.connected = s.connected ∧
    (ensureClient io s).2.pid = s.pid ∧
    (ensureClient io s).2.metrics = s.metrics ∧
    (ensureClient io s).2.histories = s.histories ∧
    (ensureClient io s).2.lastUpdateTs = s.lastUpdateTs := by
  unfold ensureClient
  split <;> [skip; split] <;> simp

theorem ensureConnected_preserve (io : Bool) (cr : Except String Bool)
    (pr : Except String (Option Int)) (s : MetricsState) :
    (ensureConnected io cr pr s).2.1.metrics = s.metrics ∧
    (ensureConnected io cr pr s).2.1.histories = s.histories ∧
    (ensureConnected io cr pr s).2.1.lastUpdateTs = s.lastUpdateTs := by
  obtain ⟨cp, c, p0, met, ts, hs⟩ := s
  rcases cr with e | b
  · cases cp <;> cases c <;> cases io <;> simp [ensureConnected, ensureClient]
  · rcases pr with e2 | p2 <;> cases b <;> cases cp <;> cases c <;> cases io <;>
      simp [ensureConnected, ensureClient]

theorem ensureConnected_connected_true (io : Bool) (cr : Except String Bool)
    (pr : Except String (Option Int)) (s : MetricsState)
    (h1 : s.connected = true) (h2 : s.clientPresent = true) :
    ensureConnected io cr pr s = (true, s, 0) := by
  unfold ensureConnected ensureClient
  simp [h1, h2]

theorem mUpdate_flags (t : ℚ) (rr : Except String Metrics) (s : MetricsState) :
    (mUpdate t rr s).2.connected = s.connected ∧
    (mUpdate t rr s).2.pid = s.pid ∧
    (mUpdate t rr s).2.clientPresent = s.clientPresent := by
  unfold mUpdate
  split
  · simp
  split
  · simp
  cases rr with
  | error e => simp
  | ok m =>
    simp only
    split
    · simp
    split <;> simp

theorem mUpdate_histLens (t : ℚ) (rr : Except String Metrics) (s : MetricsState)
    (h : ∀ kh ∈ s.histories, (kh.2 : Hist).length = 60) :
    ∀ kh ∈ (mUpdate t rr s).2.histories, (kh.2 : Hist).length = 60 := by
  unfold mUpdate
  split
  · exact h
  split
  · exact h
  cases rr with
  | error e => exact h
  | ok m =>
    simp only
    split
    · exact h
    have hpush := pushAllHist_lens (n := 60) s.histories m h
    split <;> simpa using hpush

theorem mUpdate_disconnected (t : ℚ) (rr : Except String Metrics)
    (s : MetricsState) (h : s.connected = false) :
    mUpdate t rr s = (Except.ok false, s) := by
  unfold mUpdate
  simp [h]

theorem mUpdate_success (t : ℚ) (mm : Metrics) (s : MetricsState)
    (h1 : s.connected = true) (h2 : ¬ t - s.lastUpdateTs < 1 / 100)
    (h3 : mm.isEmpty = false) (h4 : allNumeric mm = true) :
    mUpdate t (Except.ok mm) s =
      (Except.ok true,
        { s with
            lastUpdateTs := t
            metrics := mm
            histories := s.histories.map
              (fun kh => (kh.1, pushHist kh.2 (entryOfNum mm kh.1))) }) := by
  have h2i : ¬ t - s.lastUpdateTs < (100 : ℚ)⁻¹ := by rwa [one_div] at h2
  unfold mUpdate
  simp [h1, h2, h2i, h3, pushAllHist_numeric _ _ h4]

theorem floatOfVal_getD_numeric {m : Metrics} (h : allNumeric m = true) (k : String) :
    ∃ q, floatOfVal ((lookupField m k).getD (MetricVal.num 0)) = some q := by
  cases hv : lookupField m k with
  | none => exact ⟨0, by simp [hv, floatOfVal]⟩
  | some v =>
    cases v with
    | num q => exact ⟨q, by simp [hv, floatOfVal]⟩
    | nonNum => exact absurd hv (lookupField_allNumeric h)

theorem mUpdate_ok (t : ℚ) (rr : Except String Metrics) (s : MetricsState)
    (hrr : readNumeric rr) (hs : allNumeric s.metrics = true) :
    ∃ b, (mUpdate t rr s).1 = Except.ok b ∧
      allNumeric (mUpdate t rr s).2.metrics = true := by
  unfold mUpdate
  split
  · exact ⟨false, rfl, hs⟩
  split
  · exact ⟨!s.metrics.isEmpty, rfl, hs⟩
  cases rr with
  | error e => exact ⟨false, rfl, hs⟩
  | ok mm =>
    have hmm : allNumeric mm = true := hrr mm rfl
    simp only
    split
    · exact ⟨false, rfl, hs⟩
    rw [pushAllHist_numeric s.histories mm hmm]
    exact ⟨true, rfl, hmm⟩

/-! ## Structural lemmas about the facade operations -/

theorem readFpsData_ok (t : ℚ) (rr : Except String Metrics) (w : World)
    (hrr : readNumeric rr) (hm : allNumeric w.m.metrics = true) :
    ∃ b, (readFpsData t rr w).1 = Except.ok b := by
  unfold readFpsData
  split
  · exact ⟨false, rfl⟩
  obtain ⟨b, hb, hnum⟩ := mUpdate_ok t rr w.m hrr hm
  simp only [hb]
  cases b with
  | false => exact ⟨false, rfl⟩
  | true =>
    obtain ⟨q1, hq1⟩ := floatOfVal_getD_numeric hnum "fps"
    obtain ⟨q2, hq2⟩ := floatOfVal_getD_numeric hnum "fps_1_percent_low"
    simp only [hq1, hq2]
    exact ⟨true, rfl⟩

theorem readFpsData_f_preserve (t : ℚ) (rr : Except String Metrics) (w : World) :
    (readFpsData t rr w).2.f.connected = w.f.connected ∧
    (readFpsData t rr w).2.f.pid = w.f.pid ∧
    (readFpsData t rr w).2.f.lastDiscoveryTime = w.f.lastDiscoveryTime ∧
    (readFpsData t rr w).2.f.discoveryInterval = w.f.discoveryInterval ∧
    (readFpsData t rr w).2.f.zeroOnePercentLowFps = w.f.zeroOnePercentLowFps ∧
    (readFpsData t rr w).2.f.lastVal = w.f.lastVal := by
  unfold readFpsData
  split
  · simp
  generalize mUpdate t rr w.m = u
  obtain ⟨r, m2⟩ := u
  cases r with
  | error e => simp
  | ok ok =>
    simp only
    split
    · simp
    split
    · simp
    split
    · simp
    · simp

theorem fpsConnect_f_preserve (io : Bool) (cr : Except String Bool)
    (pr : Except String (Option Int)) (w : World) :
    (fpsConnect io cr pr w).2.1.f.lastDiscoveryTime = w.f.lastDiscoveryTime ∧
    (fpsConnect io cr pr w).2.1.f.discoveryInterval = w.f.discoveryInterval ∧
    (fpsConnect io cr pr w).2.1.f.currentFps = w.f.currentFps ∧
    (fpsConnect io cr pr w).2.1.f.onePercentLowFps = w.f.onePercentLowFps ∧
    (fpsConnect io cr pr w).2.1.f.zeroOnePercentLowFps = w.f.zeroOnePercentLowFps ∧
    (fpsConnect io cr pr w).2.1.f.lastVal = w.f.lastVal := by
  unfold fpsConnect
  split <;> simp

theorem fpsConnect_m_metrics (io : Bool) (cr : Except String Bool)
    (pr : Except String (Option Int)) (w : World) :
    (fpsConnect io cr pr w).2.1.m.metrics = w.m.metrics := by
  unfold fpsConnect
  split
  · rfl
  · simpa using (ensureConnected_preserve io cr pr w.m).1

theorem ensureConnected_scan (io : Bool) (cr : Except String Bool)
    (pr : Except String (Option Int)) (s : MetricsState)
    (h1 : s.connected = false) (h2 : s.clientPresent = true) :
    (ensureConnected io cr pr s).2.2 = 1 := by
  unfold ensureConnected ensureClient
  rcases cr with e | b
  · simp [h1, h2]
  · cases b <;> rcases pr with e2 | p2 <;> simp [h1, h2]

theorem dac_skip (t : ℚ) (io : Bool) (cr : Except String Bool)
    (pr : Except String (Option Int)) (w : World)
    (h : ¬((!w.f.connected) = true ∧ w.f.discoveryInterval ≤ t - w.f.lastDiscoveryTime)) :
    discoverAndConnect t io cr pr w = (w, 0) := by
  unfold discoverAndConnect
  rw [if_neg h]

theorem dac_backoff (t : ℚ) (io : Bool) (cr : Except String Bool)
    (pr : Except String (Option Int)) (w : World)
    (h2 : t - w.f.lastDiscoveryTime < w.f.discoveryInterval) :
    discoverAndConnect t io cr pr w = (w, 0) := by
  apply dac_skip
  rintro ⟨-, hb⟩
  exact absurd hb (not_le.mpr h2)

theorem dac_due (t : ℚ) (io : Bool) (cr : Except String Bool)
    (pr : Except String (Option Int)) (w : World)
    (h1 : w.f.connected = false)
    (h2 : w.f.discoveryInterval ≤ t - w.f.lastDiscoveryTime) :
    discoverAndConnect t io cr pr w =
      ((fpsConnect io cr pr { w with f := { w.f with lastDiscoveryTime := t } }).2.1,
       (fpsConnect io cr pr { w with f := { w.f with lastDiscoveryTime := t } }).2.2) := by
  unfold discoverAndConnect
  rw [if_pos ⟨by simp [h1], h2⟩]

theorem dac_f_preserve (t : ℚ) (io : Bool) (cr : Except String Bool)
    (pr : Except String (Option Int)) (w : World) :
    (discoverAndConnect t io cr pr w).1.f.discoveryInterval = w.f.discoveryInterval ∧
    (discoverAndConnect t io cr pr w).1.f.currentFps = w.f.currentFps ∧
    (discoverAndConnect t io cr pr w).1.f.onePercentLowFps = w.f.onePercentLowFps ∧
    (discoverAndConnect t io cr pr w).1.f.zeroOnePercentLowFps = w.f.zeroOnePercentLowFps ∧
    (discoverAndConnect t io cr pr w).1.f.lastVal = w.f.lastVal ∧
    (discoverAndConnect t io cr pr w).1.m.metrics = w.m.metrics := by
  unfold discoverAndConnect
  split
  · refine ⟨?_, ?_, ?_, ?_, ?_, ?_⟩ <;>
      simp [fpsConnect_f_preserve, fpsConnect_m_metrics,
        (fpsConnect_f_preserve io cr pr { w with f := { w.f with lastDiscoveryTime := t } }).1,
        (fpsConnect_f_preserve io cr pr { w with f := { w.f with lastDiscoveryTime := t } }).2.1,
        (fpsConnect_f_preserve io cr pr { w with f := { w.f with lastDiscoveryTime := t } }).2.2.1,
        (fpsConnect_f_preserve io cr pr { w with f := { w.f with lastDiscoveryTime := t } }).2.2.2.1,
        (fpsConnect_f_preserve io cr pr { w with f := { w.f with lastDiscoveryTime := t } }).2.2.2.2.1,
        (fpsConnect_f_preserve io cr pr { w with f := { w.f with lastDiscoveryTime := t } }).2.2.2.2.2,
        fpsConnect_m_metrics io cr pr { w with f := { w.f with lastDiscoveryTime := t } }]
  · simp

theorem fpsDisconnect_f_rest (dr : Except String Unit) (w : World) :
    (fpsDisconnect dr w).2.f.lastDiscoveryTime = w.f.lastDiscoveryTime ∧
    (fpsDisconnect dr w).2.f.discoveryInterval = w.f.discoveryInterval ∧
    (fpsDisconnect dr w).2.f.currentFps = w.f.currentFps ∧
    (fpsDisconnect dr w).2.f.onePercentLowFps = w.f.onePercentLowFps ∧
    (fpsDisconnect dr w).2.f.zeroOnePercentLowFps = w.f.zeroOnePercentLowFps ∧
    (fpsDisconnect dr w).2.f.lastVal = w.f.lastVal := by
  cases h : (mDisconnect dr w.m).1 with
  | none => simp [fpsDisconnect, h]
  | some e => simp [fpsDisconnect, h]

theorem fpsAsNumeric_zeroOne (t : ℚ) (io : Bool) (cr : Except String Bool)
    (pr : Except String (Option Int)) (rr : Except String Metrics) (w : World) :
    (fpsAsNumeric t io cr pr rr w).2.f.zeroOnePercentLowFps =
      w.f.zeroOnePercentLowFps := by
  have hd := (dac_f_preserve t io cr pr w).2.2.2.1
  have hr :=
    (readFpsData_f_preserve t rr (discoverAndConnect t io cr pr w).1).2.2.2.2.1
  simp only [fpsAsNumeric]
  split
  · cases h : (readFpsData t rr (discoverAndConnect t io cr pr w).1).1 with
    | error e => simpa [h] using hr.trans hd
    | ok b => simpa [h] using hr.trans hd
  · exact hd

theorem fpsAsString_zeroOne (t : ℚ) (io : Bool) (cr : Except String Bool)
    (pr : Except String (Option Int)) (rr : Except String Metrics) (w : World) :
    (fpsAsString t io cr pr rr w).2.f.zeroOnePercentLowFps =
      w.f.zeroOnePercentLowFps := by
  have hd := (dac_f_preserve t io cr pr w).2.2.2.1
  have hr1 :=
    (readFpsData_f_preserve t rr (discoverAndConnect t io cr pr w).1).2.2.2.2.1
  have hr2 := (readFpsData_f_preserve t rr w).2.2.2.2.1
  simp only [fpsAsString]
  split <;> split
  · exact hd
  · split
    · exact hr1.trans hd
    · exact hd
  · rfl
  · split
    · exact hr2
    · rfl

theorem mDisconnect_state (dr : Except String Unit) (s : MetricsState) :
    (mDisconnect dr s).2 = { s with connected := false, pid := none } := rfl

theorem fpsConnect_histories (io : Bool) (cr : Except String Bool)
    (pr : Except String (Option Int)) (w : World) :
    (fpsConnect io cr pr w).2.1.m.histories = w.m.histories := by
  unfold fpsConnect
  split
  · rfl
  · simpa using (ensureConnected_preserve io cr pr w.m).2.1

theorem dac_histories (t : ℚ) (io : Bool) (cr : Except String Bool)
    (pr : Except String (Option Int)) (w : World) :
    (discoverAndConnect t io cr pr w).1.m.histories = w.m.histories := by
  unfold discoverAndConnect
  split
  · simpa using
      fpsConnect_histories io cr pr { w with f := { w.f with lastDiscoveryTime := t } }
  · rfl

theorem readFpsData_m (t : ℚ) (rr : Except String Metrics) (w : World) :
    (readFpsData t rr w).2.m = w.m ∨
      (readFpsData t rr w).2.m = (mUpdate t rr w.m).2 := by
  simp only [readFpsData]
  split
  · exact Or.inl rfl
  cases hm : (mUpdate t rr w.m).1 with
  | error e => right; simp [hm]
  | ok b =>
    simp only [hm]
    split
    · right; rfl
    split
    · right; rfl
    · split <;> (right; rfl)

theorem fpsDisconnect_histories (dr : Except String Unit) (w : World) :
    (fpsDisconnect dr w).2.m.histories = w.m.histories := by
  cases h : (mDisconnect dr w.m).1 with
  | none => simp [fpsDisconnect, h, mDisconnect_state]
  | some e => simp [fpsDisconnect, h, mDisconnect_state]

theorem fpsAsNumeric_histLens (t : ℚ) (io : Bool) (cr : Except String Bool)
    (pr : Except String (Option Int)) (rr : Except String Metrics) (w : World)
    (h : ∀ kh ∈ w.m.histories, (kh.2 : Hist).length = 60) :
    ∀ kh ∈ (fpsAsNumeric t io cr pr rr w).2.m.histories, (kh.2 : Hist).length = 60 := by
  have hdac := dac_histories t io cr pr w
  have hw1 : ∀ kh ∈ (discoverAndConnect t io cr pr w).1.m.histories,
      (kh.2 : Hist).length = 60 := by rw [hdac]; exact h
  have hread := mUpdate_histLens t rr (discoverAndConnect t io cr pr w).1.m hw1
  have hrm := readFpsData_m t rr (discoverAndConnect t io cr pr w).1
  simp only [fpsAsNumeric]
  split
  · cases hm : (readFpsData t rr (discoverAndConnect t io cr pr w).1).1 with
    | error e =>
      simp only [hm]
      rcases hrm with h1 | h1 <;> rw [h1]
      · exact hw1
      · exact hread
    | ok b =>
      simp only [hm]
      rcases hrm with h1 | h1 <;> rw [h1]
      · exact hw1
      · exact hread
  · exact hw1

theorem fpsAsString_histLens (t : ℚ) (io : Bool) (cr : Except String Bool)
    (pr : Except String (Option Int)) (rr : Except String Metrics) (w : World)
    (h : ∀ kh ∈ w.m.histories, (kh.2 : Hist).length = 60) :
    ∀ kh ∈ (fpsAsString t io cr pr rr w).2.m.histories, (kh.2 : Hist).length = 60 := by
  have hdac := dac_histories t io cr pr w
  have hw1 : ∀ kh ∈ (discoverAndConnect t io cr pr w).1.m.histories,
      (kh.2 : Hist).length = 60 := by rw [hdac]; exact h
  have hread1 := mUpdate_histLens t rr (discoverAndConnect t io cr pr w).1.m hw1
  have hrm1 := readFpsData_m t rr (discoverAndConnect t io cr pr w).1
  have hread2 := mUpdate_histLens t rr w.m h
  have hrm2 := readFpsData_m t rr w
  simp only [fpsAsString]
  split <;> split
  · exact hw1
  · split
    · rcases hrm1 with h1 | h1 <;> rw [h1]
      · exact hw1
      · exact hread1
    · exact hw1
  · exact h
  · split
    · rcases hrm2 with h1 | h1 <;> rw [h1]
      · exact h
      · exact hread2
    · exact h

theorem stepFps_histLens (w : World) (op : FpsOp)
    (h : ∀ kh ∈ w.m.histories, (kh.2 : Hist).length = 60) :
    ∀ kh ∈ (stepFps w op).m.histories, (kh.2 : Hist).length = 60 := by
  cases op with
  | connectOp io cr pr =>
    intro kh hkh
    rw [stepFps, fpsConnect_histories] at hkh
    exact h kh hkh
  | disconnectOp dr =>
    intro kh hkh
    rw [stepFps, fpsDisconnect_histories] at hkh
    exact h kh hkh
  | discoverOp t io cr pr =>
    intro kh hkh
    rw [stepFps, dac_histories] at hkh
    exact h kh hkh
  | readOp t rr =>
    intro kh hkh
    rw [stepFps] at hkh
    rcases readFpsData_m t rr w with h1 | h1 <;> rw [h1] at hkh
    · exact h kh hkh
    · exact mUpdate_histLens t rr w.m h kh hkh
  | numericOp t io cr pr rr => exact fpsAsNumeric_histLens t io cr pr rr w h
  | stringOp t io cr pr rr => exact fpsAsString_histLens t io cr pr rr w h

theorem stepFps_zeroOne (w : World) (op : FpsOp) :
    (stepFps w op).f.zeroOnePercentLowFps = w.f.zeroOnePercentLowFps := by
  cases op with
  | connectOp io cr pr => exact (fpsConnect_f_preserve io cr pr w).2.2.2.2.1
  | disconnectOp dr => exact (fpsDisconnect_f_rest dr w).2.2.2.2.1
  | discoverOp t io cr pr => exact (dac_f_preserve t io cr pr w).2.2.2.1
  | readOp t rr => exact (readFpsData_f_preserve t rr w).2.2.2.2.1
  | numericOp t io cr pr rr => exact fpsAsNumeric_zeroOne t io cr pr rr w
  | stringOp t io cr pr rr => exact fpsAsString_zeroOne t io cr pr rr w

theorem runFps_zeroOne (ops : List FpsOp) :
    ∀ w : World, (runFps w ops).f.zeroOnePercentLowFps = w.f.zeroOnePercentLowFps := by
  induction ops with
  | nil => intro w; rfl
  | cons op rest ih =>
    intro w
    have : runFps w (op :: rest) = runFps (stepFps w op) rest := rfl
    rw [this, ih (stepFps w op), stepFps_zeroOne]

theorem runFps_histLens (ops : List FpsOp) :
    ∀ w : World, (∀ kh ∈ w.m.histories, (kh.2 : Hist).length = 60) →
      ∀ kh ∈ (runFps w ops).m.histories, (kh.2 : Hist).length = 60 := by
  induction ops with
  | nil => intro w h; exact h
  | cons op rest ih =>
    intro w h
    have : runFps w (op :: rest) = runFps (stepFps w op) rest := rfl
    rw [this]
    exact ih (stepFps w op) (stepFps_histLens w op h)

theorem ensureConnected_fail (io : Bool) (cr : Except String Bool)
    (pr : Except String (Option Int)) (s : MetricsState)
    (h : s.connected = false) (hcr : ∀ b, cr = Except.ok b → b = false) :
    (ensureConnected io cr pr s).2.1.connected = false := by
  obtain ⟨cp, c, p0, met, ts, hs⟩ := s
  simp only at h
  subst h
  rcases cr with e | b
  · cases cp <;> cases io <;> simp [ensureConnected, ensureClient]
  · have hb : b = false := hcr b rfl
    subst hb
    cases cp <;> cases io <;> simp [ensureConnected, ensureClient]

theorem fpsConnect_scan (io : Bool) (cr : Except String Bool)
    (pr : Except String (Option Int)) (w : World)
    (h1 : w.f.connected = false) (h2 : w.m.connected = false)
    (h3 : w.m.clientPresent = true) :
    (fpsConnect io cr pr w).2.2 = 1 := by
  have hs := ensureConnected_scan io cr pr w.m h2 h3
  simp only [fpsConnect, h1]
  simpa using hs

theorem dac_m_disconnected (t : ℚ) (io : Bool) (cr : Except String Bool)
    (pr : Except String (Option Int)) (w : World)
    (h : w.m.connected = false) (hcr : ∀ b, cr = Except.ok b → b = false) :
    (discoverAndConnect t io cr pr w).1.m.connected = false := by
  unfold discoverAndConnect
  split
  · rename_i hc
    have hwf : w.f.connected = false := by simpa using hc.1
    have he := ensureConnected_fail io cr pr w.m h hcr
    simp [fpsConnect, hwf, he]
  · exact h

theorem dac_f_disconnected (t : ℚ) (io : Bool) (cr : Except String Bool)
    (pr : Except String (Option Int)) (w : World)
    (h1 : w.f.connected = false) (h2 : w.m.connected = false)
    (hcr : ∀ b, cr = Except.ok b → b = false) :
    (discoverAndConnect t io cr pr w).1.f.connected = false := by
  unfold discoverAndConnect
  split
  · rename_i hc
    have hwf : w.f.connected = false := by simpa using hc.1
    have he := ensureConnected_fail io cr pr w.m h2 hcr
    simp [fpsConnect, hwf, he]
  · exact h1

/-! ## Claim theorems -/

/-- C8: every rolling history is created pre-filled with 60 NaN sentinels;
a push appends exactly one value at the end and evicts the oldest, keeping
the length at exactly 60 (the capacity) after any sequence of operations
from the initial world; and 60 pushes evict the entire initial content,
leaving exactly the 60 pushed values. -/
theorem spec_c8_rolling_history :
    (∀ kh ∈ histInit, (kh.2 : Hist) = List.replicate 60 (none : Option ℚ)) ∧
    (∀ (h : Hist) (v : Option ℚ), (pushHist h v).length = h.length ∧
      (h.length = 60 → pushHist h v = h.drop 1 ++ [v])) ∧
    (∀ (io : Bool) (ops : List FpsOp),
      ∀ kh ∈ (runFps (initialWorld io) ops).m.histories, (kh.2 : Hist).length = 60) ∧
    (∀ (acc : Hist) (vs : List (Option ℚ)), acc.length = 60 → vs.length = 60 →
      vs.foldl pushHist acc = vs) := by
  refine ⟨by decide, ?_, ?_, ?_⟩
  · intro h v
    refine ⟨pushHist_length h v, fun hl => pushHist_eq_tail_append h v ?_⟩
    intro hnil
    rw [hnil] at hl
    simp at hl
  · intro io ops
    apply runFps_histLens
    have hall : ∀ kh ∈ histInit, (kh.2 : Hist).length = 60 := by decide
    exact hall
  · intro acc vs h1 h2
    exact foldl_pushHist_full acc vs (h1.trans h2.symm)

/-- C8 witness: pushing on a full history keeps length 60, and 60 pushes
of `some 3` onto the sentinel-filled initial history yield exactly those
60 values. -/
theorem spec_c8_rolling_history_witness :
    (List.replicate 60 (none : Option ℚ)).length = 60 ∧
    (List.replicate 60 (some (3 : ℚ))).length = 60 ∧
    (List.replicate 60 (some (3 : ℚ))).foldl pushHist
        (List.replicate 60 (none : Option ℚ)) =
      List.replicate 60 (some (3 : ℚ)) :=
  ⟨by decide, by decide,
    spec_c8_rolling_history.2.2.2 (List.replicate 60 (none : Option ℚ))
      (List.replicate 60 (some (3 : ℚ))) (by decide) (by decide)⟩

/-- C4: contrary to the claim, `zero_one_percent_low_fps` is assigned only
in `MangoHudFPS.__init__` (to 0.0) and never updated by any operation, so
`MangoHudZeroOnePercentLow.as_numeric` returns 0 after every sequence of
operations, no matter how many samples were ingested. -/
theorem spec_c4_zero_one_percent_never_computed :
    ∀ (io : Bool) (ops : List FpsOp),
      zeroOnePercentLowAsNumeric (runFps (initialWorld io) ops) = 0 ∧
      (runFps (initialWorld io) ops).f.zeroOnePercentLowFps = 0 := by
  intro io ops
  have h := runFps_zeroOne ops (initialWorld io)
  constructor
  · unfold zeroOnePercentLowAsNumeric
    rw [h]
    rfl
  · rw [h]
    rfl

/-- C6: `MangoHudMetrics.ensure_connected` is idempotent from a connected
state: it returns true immediately, performs no discovery scan, and leaves
the state unchanged; a second call does exactly the same. -/
theorem spec_c6_ensure_connected_idempotent :
    ∀ (io io2 : Bool) (cr cr2 : Except String Bool)
      (pr pr2 : Except String (Option Int)) (s : MetricsState),
      s.connected = true → s.clientPresent = true →
      ensureConnected io cr pr s = (true, s, 0) ∧
      ensureConnected io2 cr2 pr2 (ensureConnected io cr pr s).2.1 = (true, s, 0) := by
  intro io io2 cr cr2 pr pr2 s h1 h2
  have h := ensureConnected_connected_true io cr pr s h1 h2
  refine ⟨h, ?_⟩
  rw [h]
  exact ensureConnected_connected_true io2 cr2 pr2 s h1 h2

/-- C6 witness: from a concrete connected provider state, two
`ensure_connected` calls both return true with zero scans and the state
intact. -/
theorem spec_c6_ensure_connected_idempotent_witness :
    sampleConnected.connected = true ∧ sampleConnected.clientPresent = true ∧
    ensureConnected true (Except.ok true) (Except.ok (some 5)) sampleConnected =
      (true, sampleConnected, 0) ∧
    ensureConnected false (Except.error "refused") (Except.error "refused")
        (ensureConnected true (Except.ok true) (Except.ok (some 5)) sampleConnected).2.1 =
      (true, sampleConnected, 0) := by
  have h := spec_c6_ensure_connected_idempotent true false (Except.ok true)
    (Except.error "refused") (Except.ok (some 5)) (Except.error "refused")
    sampleConnected (by decide) (by decide)
  exact ⟨by decide, by decide, h.1, h.2⟩

/-- C5: `disconnect` unconditionally resets `connected` to false and the
remembered pid to none for every close outcome (the `finally` block), it
leaves the snapshot and histories alone, and with the spec-modelled client
close (which never raises) neither `MangoHudMetrics.disconnect` nor
`MangoHudFPS.disconnect` raises, the latter also resetting the facade's
own flags. -/
theorem spec_c5_disconnect_resets :
    (∀ (dr : Except String Unit) (s : MetricsState),
      (mDisconnect dr s).2.connected = false ∧ (mDisconnect dr s).2.pid = none ∧
      (mDisconnect dr s).2.metrics = s.metrics ∧
      (mDisconnect dr s).2.histories = s.histories) ∧
    (∀ s : MetricsState, (mDisconnect clientCloseSpec s).1 = none) ∧
    (∀ w : World,
      fpsDisconnect clientCloseSpec w =
        (none, { f := { w.f with connected := false, pid := none },
                 m := { w.m with connected := false, pid := none } })) := by
  refine ⟨fun dr s => ⟨rfl, rfl, rfl, rfl⟩, ?_, ?_⟩
  · intro s
    simp [mDisconnect, clientCloseSpec]
  · intro w
    have h1 : (mDisconnect clientCloseSpec w.m).1 = none := by
      simp [mDisconnect, clientCloseSpec]
    simp [fpsDisconnect, h1, mDisconnect_state]

/-- C10: the `MangoHudMetrics` constructor is a process-wide singleton:
re-running `__init__` on an initialized instance is a no-op, constructing
returns the very instance stored in the class cell unchanged, and after
any first construction every further `MangoHudMetrics()` or
`MangoHudMetrics.instance()` returns that same instance and leaves the
cell unchanged. -/
theorem spec_c10_metrics_singleton :
    (∀ (io : Bool) (i : MetricsInstance), i.initDone = true →
      runInitMetrics io i = i) ∧
    (∀ (io : Bool) (i : MetricsInstance), i.initDone = true →
      constructMetrics io (some i) = (i, some i)) ∧
    (∀ (io1 io2 : Bool) (cell : Option MetricsInstance),
      constructMetrics io2 (constructMetrics io1 cell).2 =
        ((constructMetrics io1 cell).1, (constructMetrics io1 cell).2) ∧
      instanceMetrics io2 (constructMetrics io1 cell).2 =
        ((constructMetrics io1 cell).1, (constructMetrics io1 cell).2)) := by
  have hrun : ∀ (io : Bool) (i : MetricsInstance), i.initDone = true →
      runInitMetrics io i = i := by
    intro io i h
    unfold runInitMetrics
    rw [if_pos h]
  have hcons : ∀ (io : Bool) (i : MetricsInstance), i.initDone = true →
      constructMetrics io (some i) = (i, some i) := by
    intro io i h
    unfold constructMetrics
    simp [hrun io i h]
  have hdone : ∀ (io : Bool) (cell : Option MetricsInstance),
      (constructMetrics io cell).1.initDone = true := by
    intro io cell
    cases cell with
    | none => simp [constructMetrics, runInitMetrics, blankMetricsInstance]
    | some i =>
      by_cases h : i.initDone = true
      · simp [constructMetrics, runInitMetrics, h]
      · simp [constructMetrics, runInitMetrics, h]
  refine ⟨hrun, hcons, ?_⟩
  intro io1 io2 cell
  have hsnd : (constructMetrics io1 cell).2 = some (constructMetrics io1 cell).1 := rfl
  constructor
  · rw [hsnd]
    exact hcons io2 (constructMetrics io1 cell).1 (hdone io1 cell)
  · rw [instanceMetrics, hsnd]
    exact hcons io2 (constructMetrics io1 cell).1 (hdone io1 cell)

/-- C10 witness: re-constructing on an already-initialized stored instance
returns it unchanged. -/
theorem spec_c10_metrics_singleton_witness :
    (⟨true, initialMetricsState true⟩ : MetricsInstance).initDone = true ∧
    constructMetrics false (some ⟨true, initialMetricsState true⟩) =
      (⟨true, initialMetricsState true⟩, some ⟨true, initialMetricsState true⟩) :=
  ⟨rfl, spec_c10_metrics_singleton.2.1 false ⟨true, initialMetricsState true⟩ rfl⟩

/-- C3: the 1% low is not recomputed below 100 samples (the previous value
is retained, so callers see the stale/insufficient-data value), and on the
buffer of 99 frames at 10 ms plus one at 100 ms the computation selects
the worst `max(1, 100 / 100) = 1` entry, averages and inverts, giving
exactly 10 FPS. -/
theorem spec_c3_one_percent_low :
    (∀ (prevOne prevZeroOne : ℚ) (buf : List ℚ), buf.length < 100 →
      (computeLowFps prevOne prevZeroOne buf).1 = prevOne) ∧
    (∀ prevOne prevZeroOne : ℚ,
      (computeLowFps prevOne prevZeroOne scenarioBuf).1 = 10) ∧
    scenarioBuf.length = 100 ∧
    lowSelection scenarioBuf 100 = [100] := by
  refine ⟨?_, ?_, by decide, by decide⟩
  · intro p z buf h
    unfold computeLowFps
    rw [if_neg (by omega)]
  · intro p z
    have hsel : lowSelection scenarioBuf 100 = [100] := by decide
    have hlen : scenarioBuf.length = 100 := by decide
    unfold computeLowFps
    rw [if_pos (by omega)]
    simp only [lowFpsValue, hsel, List.sum_cons, List.sum_nil, List.length_cons,
      List.length_nil]
    norm_num

/-- C3 witness: a 1-element buffer is below the threshold, so the previous
value 7 is retained; the 100-element scenario buffer yields 10. -/
theorem spec_c3_one_percent_low_witness :
    ([(5 : ℚ)] : List ℚ).length < 100 ∧
    (computeLowFps 7 8 [(5 : ℚ)]).1 = 7 ∧
    (computeLowFps 7 8 scenarioBuf).1 = 10 :=
  ⟨by decide, spec_c3_one_percent_low.1 7 8 [(5 : ℚ)] (by decide),
    spec_c3_one_percent_low.2.1 7 8⟩

/-- C9: a successful `MangoHudMetrics.update` replaces the snapshot
wholesale (afterwards `get` reflects exactly the incoming mapping), pushes
for every tracked field its incoming value — or the NaN sentinel if the
field is absent — evicting the oldest entry, and `get_history` of a field
with no tracked history returns the sentinel-filled full-capacity
sequence. -/
theorem spec_c9_update_wholesale :
    (∀ (t : ℚ) (mm : Metrics) (s : MetricsState),
      s.connected = true → ¬ t - s.lastUpdateTs < 1 / 100 →
      mm.isEmpty = false → allNumeric mm = true →
      (mUpdate t (Except.ok mm) s).1 = Except.ok true ∧
      (mUpdate t (Except.ok mm) s).2.metrics = mm ∧
      (∀ k, mGet (mUpdate t (Except.ok mm) s).2 k = lookupField mm k) ∧
      (mUpdate t (Except.ok mm) s).2.histories =
        s.histories.map (fun kh => (kh.1, pushHist kh.2 (entryOfNum mm kh.1)))) ∧
    (∀ (s2 : MetricsState) (field : String),
      (∀ kh ∈ s2.histories, kh.1 ≠ field) →
      mGetHistory s2 field = List.replicate 60 (none : Option ℚ)) := by
  constructor
  · intro t mm s h1 h2 h3 h4
    have hu := mUpdate_success t mm s h1 h2 h3 h4
    rw [hu]
    exact ⟨rfl, rfl, fun k => rfl, rfl⟩
  · intro s2 field hf
    unfold mGetHistory
    have hnone : s2.histories.find? (fun kh => kh.1 = field) = none := by
      rw [List.find?_eq_none]
      intro kh hkh
      simpa using hf kh hkh
    rw [hnone]
    rfl

/-- C9 witness: updating a freshly connected provider at `t = 1` with a
mapping containing fps and gpu_load succeeds, replaces the snapshot, and
an untracked field's history is sentinel-filled. -/
theorem spec_c9_update_wholesale_witness :
    sampleConnected.connected = true ∧
    ¬ (1 : ℚ) - sampleConnected.lastUpdateTs < 1 / 100 ∧
    sampleMetrics.isEmpty = false ∧ allNumeric sampleMetrics = true ∧
    (mUpdate 1 (Except.ok sampleMetrics) sampleConnected).1 = Except.ok true ∧
    (mUpdate 1 (Except.ok sampleMetrics) sampleConnected).2.metrics = sampleMetrics ∧
    (∀ kh ∈ sampleConnected.histories, kh.1 ≠ "cpu_load") ∧
    mGetHistory sampleConnected "cpu_load" = List.replicate 60 (none : Option ℚ) := by
  have hthr : ¬ (1 : ℚ) - sampleConnected.lastUpdateTs < 1 / 100 := by
    norm_num [sampleConnected]
  have huntracked : ∀ kh ∈ sampleConnected.histories, kh.1 ≠ "cpu_load" := by decide
  have h := spec_c9_update_wholesale.1 1 sampleMetrics sampleConnected (by decide)
    hthr (by decide) (by decide)
  exact ⟨by decide, hthr, by decide, by decide, h.1, h.2.1, huntracked,
    spec_c9_update_wholesale.2 sampleConnected "cpu_load" huntracked⟩

/-- C2: while disconnected and within the 5-second backoff window,
`discover_and_connect` (the tick-level ensure-connected operation that
wraps `provider.ensure_connected`) performs no discovery scan and leaves
the world unchanged (hence still disconnected); and two such calls within
one window with no successful connection in between perform exactly one
discovery scan (one on the first call, none on the second). -/
theorem spec_c2_discovery_backoff :
    (∀ (t : ℚ) (io : Bool) (cr : Except String Bool)
      (pr : Except String (Option Int)) (w : World),
      w.f.connected = false →
      t - w.f.lastDiscoveryTime < w.f.discoveryInterval →
      discoverAndConnect t io cr pr w = (w, 0)) ∧
    (∀ (t1 t2 : ℚ) (io1 io2 : Bool) (cr1 cr2 : Except String Bool)
      (pr1 pr2 : Except String (Option Int)) (w : World),
      w.f.connected = false → w.m.connected = false →
      w.m.clientPresent = true →
      w.f.discoveryInterval ≤ t1 - w.f.lastDiscoveryTime →
      t2 - t1 < w.f.discoveryInterval →
      (discoverAndConnect t1 io1 cr1 pr1 w).1.f.connected = false →
      (discoverAndConnect t1 io1 cr1 pr1 w).2 = 1 ∧
      (discoverAndConnect t2 io2 cr2 pr2 (discoverAndConnect t1 io1 cr1 pr1 w).1).2 = 0) := by
  constructor
  · intro t io cr pr w h1 h2
    exact dac_backoff t io cr pr w h2
  · intro t1 t2 io1 io2 cr1 cr2 pr1 pr2 w h1 h2 h3 h4 h5 h6
    have hdue := dac_due t1 io1 cr1 pr1 w h1 h4
    have hw1f : ({ w with f := { w.f with lastDiscoveryTime := t1 } } : World).f.connected
        = false := by simpa using h1
    constructor
    · rw [hdue]
      exact fpsConnect_scan io1 cr1 pr1 _ hw1f h2 h3
    · have hlast : (discoverAndConnect t1 io1 cr1 pr1 w).1.f.lastDiscoveryTime = t1 := by
        rw [hdue]
        have := (fpsConnect_f_preserve io1 cr1 pr1
          { w with f := { w.f with lastDiscoveryTime := t1 } }).1
        simpa using this
      have hint : (discoverAndConnect t1 io1 cr1 pr1 w).1.f.discoveryInterval =
          w.f.discoveryInterval := by
        rw [hdue]
        have := (fpsConnect_f_preserve io1 cr1 pr1
          { w with f := { w.f with lastDiscoveryTime := t1 } }).2.1
        simpa using this
      have hb := dac_backoff t2 io2 cr2 pr2 (discoverAndConnect t1 io1 cr1 pr1 w).1
        (by rw [hlast, hint]; exact h5)
      rw [hb]

/-- C2 witness: from the initial world (client present, nothing connected),
a first call at `t = 5` scans once and fails to connect (connection
refused), and a second call at `t = 6` (within the 5-second window)
performs no scan. -/
theorem spec_c2_discovery_backoff_witness :
    sampleScanWorld.f.connected = false ∧
    sampleScanWorld.m.connected = false ∧
    sampleScanWorld.m.clientPresent = true ∧
    sampleScanWorld.f.discoveryInterval ≤ (5 : ℚ) - sampleScanWorld.f.lastDiscoveryTime ∧
    (6 : ℚ) - 5 < sampleScanWorld.f.discoveryInterval ∧
    (discoverAndConnect 5 true (Except.error "refused") (Except.error "refused")
      sampleScanWorld).1.f.connected = false ∧
    (discoverAndConnect 5 true (Except.error "refused") (Except.error "refused")
      sampleScanWorld).2 = 1 ∧
    (discoverAndConnect 6 true (Except.error "refused") (Except.error "refused")
      (discoverAndConnect 5 true (Except.error "refused") (Except.error "refused")
        sampleScanWorld).1).2 = 0 := by
  have hdue : sampleScanWorld.f.discoveryInterval ≤
      (5 : ℚ) - sampleScanWorld.f.lastDiscoveryTime := by
    norm_num [sampleScanWorld, initialFpsState]
  have hwin : (6 : ℚ) - 5 < sampleScanWorld.f.discoveryInterval := by
    norm_num [sampleScanWorld, initialFpsState]
  have hcr : ∀ b, (Except.error "refused" : Except String Bool) = Except.ok b →
      b = false := by
    intro b hb
    cases hb
  have hdisc := dac_f_disconnected 5 true (Except.error "refused")
    (Except.error "refused") sampleScanWorld (by decide) (by decide) hcr
  have h := spec_c2_discovery_backoff.2 5 6 true true (Except.error "refused")
    (Except.error "refused") (Except.error "refused") (Except.error "refused")
    sampleScanWorld (by decide) (by decide) (by decide) hdue hwin hdisc
  exact ⟨by decide, by decide, by decide, hdue, hwin, hdisc, h.1, h.2⟩

/-- C7: with the spec-modelled client contract (read results and cached
snapshots hold float values), `as_numeric` never raises: the base sensor
accessor always returns `.ok`, yielding 0 when the field is absent or its
stored value non-numeric and the stored (possibly stale) value otherwise,
and `MangoHudFPS.as_numeric` always returns `.ok` with the cached
`current_fps` (0 until a first read, stale afterwards). -/
theorem spec_c7_as_numeric_safe :
    ∀ (b : BaseSensor) (t : ℚ) (io : Bool) (cr : Except String Bool)
      (pr : Except String (Option Int)) (rr : Except String Metrics)
      (s : MetricsState) (w : World),
      readNumeric rr → allNumeric s.metrics = true →
      allNumeric w.m.metrics = true →
      (∃ q, (baseAsNumeric b t io cr pr rr s).1 = Except.ok q) ∧
      (mGet (baseAsNumeric b t io cr pr rr s).2 b.field = none →
        (baseAsNumeric b t io cr pr rr s).1 = Except.ok 0) ∧
      (mGet (baseAsNumeric b t io cr pr rr s).2 b.field = some MetricVal.nonNum →
        (baseAsNumeric b t io cr pr rr s).1 = Except.ok 0) ∧
      (∀ q, mGet (baseAsNumeric b t io cr pr rr s).2 b.field = some (MetricVal.num q) →
        (baseAsNumeric b t io cr pr rr s).1 = Except.ok q) ∧
      (∃ q, (fpsAsNumeric t io cr pr rr w).1 = Except.ok q ∧
        q = (fpsAsNumeric t io cr pr rr w).2.f.currentFps) := by
  intro b t io cr pr rr s w hrr hs hw
  have hfps : ∃ q, (fpsAsNumeric t io cr pr rr w).1 = Except.ok q ∧
      q = (fpsAsNumeric t io cr pr rr w).2.f.currentFps := by
    have hw1 : allNumeric (discoverAndConnect t io cr pr w).1.m.metrics = true := by
      rw [(dac_f_preserve t io cr pr w).2.2.2.2.2]
      exact hw
    obtain ⟨b2, hb2⟩ := readFpsData_ok t rr (discoverAndConnect t io cr pr w).1 hrr hw1
    simp only [fpsAsNumeric]
    split
    · simp only [hb2]
      exact ⟨_, rfl, rfl⟩
    · exact ⟨_, rfl, rfl⟩
  have hs1 : allNumeric (ensureConnected io cr pr s).2.1.metrics = true := by
    rw [(ensureConnected_preserve io cr pr s).1]
    exact hs
  obtain ⟨bb, hb, hnum⟩ := mUpdate_ok t rr (ensureConnected io cr pr s).2.1 hrr hs1
  cases hv : mGet (mUpdate t rr (ensureConnected io cr pr s).2.1).2 b.field with
  | none =>
    have hres : baseAsNumeric b t io cr pr rr s =
        (Except.ok 0, (mUpdate t rr (ensureConnected io cr pr s).2.1).2) := by
      simp only [baseAsNumeric, hb, hv]
    refine ⟨⟨0, by rw [hres]⟩, fun _ => by rw [hres], ?_, ?_, hfps⟩
    · intro hcond
      simp [hres, hv] at hcond
    · intro q hcond
      simp [hres, hv] at hcond
  | some v =>
    cases v with
    | num q0 =>
      have hres : baseAsNumeric b t io cr pr rr s =
          (Except.ok q0, (mUpdate t rr (ensureConnected io cr pr s).2.1).2) := by
        simp only [baseAsNumeric, hb, hv, floatOfVal]
      refine ⟨⟨q0, by rw [hres]⟩, ?_, ?_, ?_, hfps⟩
      · intro hcond
        simp [hres, hv] at hcond
      · intro hcond
        simp [hres, hv] at hcond
      · intro q hcond
        simp only [hres] at hcond ⊢
        rw [hv] at hcond
        have hq : q0 = q := by simpa using hcond
        rw [hq]
    | nonNum =>
      have hres : baseAsNumeric b t io cr pr rr s =
          (Except.ok 0, (mUpdate t rr (ensureConnected io cr pr s).2.1).2) := by
        simp only [baseAsNumeric, hb, hv, floatOfVal]
      refine ⟨⟨0, by rw [hres]⟩, ?_, fun _ => by rw [hres], ?_, hfps⟩
      · intro hcond
        simp [hres, hv] at hcond
      · intro q hcond
        simp [hres, hv] at hcond

/-- C7 witness: with an absent client, failing connect/read outcomes and a
fresh state, both accessors return `.ok` (no exception) — the base sensor
yields 0 for its absent field. -/
theorem spec_c7_as_numeric_safe_witness :
    readNumeric (Except.error "read failed") ∧
    allNumeric (initialMetricsState false).metrics = true ∧
    allNumeric (initialWorld false).m.metrics = true ∧
    (∃ q, (baseAsNumeric fpsAvgSensor 0 false (Except.error "conn")
      (Except.error "pid") (Except.error "read failed")
      (initialMetricsState false)).1 = Except.ok q) ∧
    (∃ q, (fpsAsNumeric 0 false (Except.error "conn") (Except.error "pid")
      (Except.error "read failed") (initialWorld false)).1 = Except.ok q) := by
  have hrr : readNumeric (Except.error "read failed") := by
    intro m h
    cases h
  have h := spec_c7_as_numeric_safe fpsAvgSensor 0 false (Except.error "conn")
    (Except.error "pid") (Except.error "read failed") (initialMetricsState false)
    (initialWorld false) hrr (by decide) (by decide)
  obtain ⟨q2, hq2, -⟩ := h.2.2.2.2
  exact ⟨hrr, by decide, by decide, h.1, ⟨q2, hq2⟩⟩

/-- C1 counterexample: the claim fails on the code.  A `_MangoHudBaseSensor`
facade (here `MangoHudFPSAvg`) in a never-connected state returns the
formatted zero `"  0"`, not the `"---"` placeholder; a base facade holding
a stale snapshot returns its stale 42, not 0, while disconnected; and a
connected `MangoHudFPS` whose last FPS was 1000 formats a 4-character
string, so the width is not constant across all states. -/
theorem spec_c1_counterexample :
    (baseAsString fpsAvgSensor 0 false (Except.error "e") (Except.error "e")
        (Except.error "e") (initialMetricsState false)).1 = Except.ok "  0" ∧
    ("  0" : String) ≠ "---" ∧
    (baseAsNumeric fpsAvgSensor 0 false (Except.error "e") (Except.error "e")
        (Except.error "e") sampleStale).1 = Except.ok 42 ∧
    (42 : ℚ) ≠ 0 ∧
    (fpsAsString 0 true (Except.ok true) (Except.ok (some 1)) (Except.error "e")
        sampleWideWorld).1 = "1000" ∧
    ("1000" : String).length ≠ ("---" : String).length := by
  have hthr : (0 : ℚ) - sampleWideWorld.m.lastUpdateTs < 1 / 100 := by
    norm_num [sampleWideWorld, initialMetricsState]
  have hupd : mUpdate 0 (Except.error "e") sampleWideWorld.m =
      (Except.ok false, sampleWideWorld.m) := by
    simp [mUpdate, hthr, sampleWideWorld, initialMetricsState]
  have hfc : sampleWideWorld.f.connected = true := rfl
  have hmc : sampleWideWorld.m.connected = true := rfl
  have hcf : sampleWideWorld.f.currentFps = 1000 := rfl
  have hread : readFpsData 0 (Except.error "e") sampleWideWorld =
      (Except.ok false, sampleWideWorld) := by
    simp [readFpsData, hfc, hupd]
  have hfmt : fmtRight3 (pyRound (1000 : ℚ)) = "1000" := by decide
  have hstr : (fpsAsString 0 true (Except.ok true) (Except.ok (some 1)) (Except.error "e")
      sampleWideWorld).1 = "1000" := by
    simp [fpsAsString, hfc, hmc, hread, hcf, hfmt]
  exact ⟨by decide, by decide, by decide, by decide, hstr, by decide⟩

set_option maxRecDepth 4000 in
/-- C1 (amended): when the provider is not connected (and the connect
attempt fails), `MangoHudFPS.as_string` returns the 3-character `"---"`
placeholder, and so do `MangoHud1PercentLow` and
`MangoHudZeroOnePercentLow` when the FPS facade is disconnected; the
`_MangoHudBaseSensor` facades instead format their numeric value even
while disconnected, yielding the 3-character `"  0"` (not `"---"`) when
nothing was ever read; `as_numeric` returns 0 only when no value was ever
read and otherwise keeps the stale value (for `MangoHudFPS`, the cached
`current_fps`, initially 0); the string width is 3 for the placeholder and
for every formatted value whose rounded integer lies in 0..999 (values of
1000 and beyond widen the string). -/
theorem spec_c1_amended :
    (∀ (t : ℚ) (io : Bool) (cr : Except String Bool) (pr : Except String (Option Int))
      (rr : Except String Metrics) (w : World),
      w.m.connected = false → (∀ bb, cr = Except.ok bb → bb = false) →
      (fpsAsString t io cr pr rr w).1 = "---") ∧
    (∀ w : World, w.f.connected = false →
      onePercentLowAsString w = "---" ∧ zeroOnePercentLowAsString w = "---") ∧
    (∀ (b : BaseSensor) (t : ℚ) (io : Bool) (cr : Except String Bool)
      (pr : Except String (Option Int)) (rr : Except String Metrics) (s : MetricsState),
      s.connected = false → s.metrics = [] → (∀ bb, cr = Except.ok bb → bb = false) →
      (baseAsString b t io cr pr rr s).1 = Except.ok "  0" ∧
      (baseAsNumeric b t io cr pr rr s).1 = Except.ok 0) ∧
    (("---" : String).length = 3 ∧ ("  0" : String).length = 3 ∧
      ∀ n : Fin 1000, (fmtRight3 (n : Int)).length = 3) ∧
    (∀ (t : ℚ) (io : Bool) (cr : Except String Bool) (pr : Except String (Option Int))
      (rr : Except String Metrics) (w : World),
      w.f.connected = false → w.m.connected = false →
      (∀ bb, cr = Except.ok bb → bb = false) →
      (fpsAsNumeric t io cr pr rr w).1 = Except.ok w.f.currentFps) ∧
    (∀ io : Bool, (initialWorld io).f.currentFps = 0) := by
  refine ⟨?_, ?_, ?_, ⟨by decide, by decide, by decide⟩, ?_, fun io => rfl⟩
  · intro t io cr pr rr w h hcr
    have hm := dac_m_disconnected t io cr pr w h hcr
    simp only [fpsAsString]
    split
    · rw [if_pos (by simp [hm])]
    · rw [if_pos (by simp [h])]
  · intro w h
    constructor
    · simp [onePercentLowAsString, h]
    · simp [zeroOnePercentLowAsString, h]
  · intro b t io cr pr rr s h1 h2 hcr
    have hc := ensureConnected_fail io cr pr s h1 hcr
    have hmet := (ensureConnected_preserve io cr pr s).1
    have hupd := mUpdate_disconnected t rr (ensureConnected io cr pr s).2.1 hc
    have hget : mGet (ensureConnected io cr pr s).2.1 b.field = none := by
      simp [mGet, lookupField, hmet, h2]
    have hres : baseAsNumeric b t io cr pr rr s =
        (Except.ok 0, (ensureConnected io cr pr s).2.1) := by
      simp only [baseAsNumeric, hupd, hget]
    have h0 : fmtRight3 (pyRound 0) = "  0" := by decide
    constructor
    · simp only [baseAsString, hres, h0]
    · rw [hres]
  · intro t io cr pr rr w h1 h2 hcr
    have hd := dac_f_disconnected t io cr pr w h1 h2 hcr
    have hcfps := (dac_f_preserve t io cr pr w).2.1
    simp only [fpsAsNumeric]
    rw [if_neg (by simp [hd])]
    simp [hcfps]

/-- C1 amended witness: in the never-connected initial state with a failing
connect, `MangoHudFPS.as_string` gives `"---"` while the GPU-load base
sensor gives `"  0"`. -/
theorem spec_c1_amended_witness :
    (initialWorld false).m.connected = false ∧
    (fpsAsString 0 false (Except.error "e") (Except.error "e") (Except.error "e")
      (initialWorld false)).1 = "---" ∧
    (initialMetricsState false).connected = false ∧
    (initialMetricsState false).metrics = [] ∧
    (baseAsString gpuLoadSensor 0 false (Except.error "e") (Except.error "e")
      (Except.error "e") (initialMetricsState false)).1 = Except.ok "  0" := by
  have hcr : ∀ bb, (Except.error "e" : Except String Bool) = Except.ok bb →
      bb = false := by
    intro bb h
    cases h
  have hA := spec_c1_amended.1 0 false (Except.error "e") (Except.error "e")
    (Except.error "e") (initialWorld false) (by decide) hcr
  have hC := spec_c1_amended.2.2.1 gpuLoadSensor 0 false (Except.error "e")
    (Except.error "e") (Except.error "e") (initialMetricsState false) (by decide)
    (by decide) hcr
  exact ⟨by decide, hA, by decide, by decide, hC.1⟩
